import Mathlib

/-!
Verification development for the HPO MCP server hierarchy layer.

The definitions below are a shallow embedding of the handler code in
src/src/handlers/hpo-handlers.ts and of the identifier formatter in
src/src/utils/api-client.ts.  Remote fetches are modelled by passing the
fetch results (ApiResponse values) as explicit arguments to each handler
function; the JavaScript truthiness conventions used by the handlers on
optional strings and optional payloads are modelled explicitly.
-/

/-- Minimal term reference, mirroring SimpleOntologyTerm: id and name. -/
structure TermRef where
  id : String
  name : String
deriving DecidableEq, Repr

/-- Full ontology term record, mirroring the fields of OntologyTerm that the
handlers read.  Optional fields are Option values. -/
structure OntologyTerm where
  id : String
  name : String
  definition : Option String := none
  comment : Option String := none
  synonyms : Option (List String) := none
  xrefs : Option (List String) := none
  alternativeIds : Option (List String) := none
  isObsolete : Option Bool := none
deriving DecidableEq, Repr

/-- Result of one remote call, mirroring ApiResponse: an optional payload
and an optional error message. -/
structure ApiResponse (α : Type) where
  data : Option α := none
  error : Option String := none
deriving DecidableEq, Repr

/-- JavaScript truthiness of an optional string: undefined and the empty
string are falsy, every other string is truthy. -/
def truthy : Option String → Bool
  | none => false
  | some s => !(s == "")

/-- JavaScript expression a || b on two optional error strings, coerced to
the string that a template literal would print. -/
def jsOrE (a b : Option String) : String :=
  if truthy a then a.getD "" else b.getD "undefined"

/-- JavaScript test id.startsWith(\x7bHP:\x7d) on the character list of the id. -/
def startsWithHP (l : List Char) : Bool :=
  l.take 3 == ['H', 'P', ':']

/-- JavaScript regex test for one or more digits and nothing else. -/
def allDigits (s : String) : Bool :=
  !s.data.isEmpty && s.data.all Char.isDigit

/-- JavaScript id.padStart(7, zero): left pad with the digit zero up to
length seven. -/
def padStart7 (s : String) : String :=
  String.mk (List.replicate (7 - s.length) ('0') ++ s.data)

/-- formatHPOId from src/src/utils/api-client.ts: keep an id that already
starts with the HP prefix, prefix and pad an all digit id, and pass any
other input through unchanged. -/
def formatHPOId (id : String) : String :=
  if startsWithHP id.data then id
  else if allDigits id then "HP:" ++ padStart7 id
  else id

/-- Canonical id shape from the specification regex: the HP prefix followed
by exactly seven digits.  Used only to state theorems. -/
def matchesCanonical (s : String) : Bool :=
  startsWithHP s.data && (s.data.drop 3).length == 7 && (s.data.drop 3).all Char.isDigit

/-- The four relationship classifications of compareHPOTerms.  The
constructors stand, in order, for the four message strings assigned to the
relationship variable in lines 530 to 537 of hpo-handlers.ts. -/
inductive RelationshipVerdict where
  | FirstIsDescendantOfSecond
  | SecondIsDescendantOfFirst
  | RelatedViaCommonAncestors
  | Unrelated
deriving DecidableEq, Repr

/-- Common ancestors (lines 526 to 527): the members of the second ancestor
list whose id occurs in the id set built from the first ancestor list. -/
def commonAncestorsOf (ancestors1 ancestors2 : List TermRef) : List TermRef :=
  ancestors2.filter (fun a => ancestors1.any (fun b => b.id == a.id))

/-- Relationship cascade (lines 529 to 537): first check whether the id of
the second term occurs among the ancestors of the first, then the converse,
then whether any common ancestor exists. -/
def classifyRelationship (term1 term2 : String)
    (ancestors1 ancestors2 : List TermRef) : RelationshipVerdict :=
  if ancestors1.any (fun a => a.id == term2) then .FirstIsDescendantOfSecond
  else if ancestors2.any (fun a => a.id == term1) then .SecondIsDescendantOfFirst
  else if (commonAncestorsOf ancestors1 ancestors2).length > 0 then .RelatedViaCommonAncestors
  else .Unrelated

/-- Outcome of compareHPOTerms: the error return, the not found return, or
the comparison report carrying the verdict and the common ancestor list. -/
inductive CompareResult where
  | fetchError (msg : String)
  | notFound (term1 term2 : String)
  | ok (verdict : RelationshipVerdict) (commonAncestors : List TermRef)
deriving DecidableEq, Repr

/-- compareHPOTerms from hpo-handlers.ts, with the four remote fetch results
passed as arguments.  The term fetch errors are checked first, reporting the
first truthy error; missing term payloads give the not found return; the
ancestor fetch results are read through data or else the empty list, with no
error check. -/
def compareHPOTerms (term1 term2 : String)
    (term1Result term2Result : ApiResponse OntologyTerm)
    (ancestors1Result ancestors2Result : ApiResponse (List TermRef)) : CompareResult :=
  if truthy term1Result.error || truthy term2Result.error then
    .fetchError ("Error retrieving terms: " ++ jsOrE term1Result.error term2Result.error)
  else if term1Result.data.isNone || term2Result.data.isNone then
    .notFound term1 term2
  else
    let ancestors1 := ancestors1Result.data.getD []
    let ancestors2 := ancestors2Result.data.getD []
    .ok (classifyRelationship term1 term2 ancestors1 ancestors2)
      (commonAncestorsOf ancestors1 ancestors2)

/-- Outcome of getHPOTermPath: the error return, the not found return, or
the reconstructed path together with the reported depth. -/
inductive PathResult where
  | fetchError (msg : String)
  | notFound (id : String)
  | ok (pathTerms : List TermRef) (depth : Nat)
deriving DecidableEq, Repr

/-- getHPOTermPath from hpo-handlers.ts, with the two remote fetch results
passed as arguments.  The path is the reversed ancestor closure with the
queried term appended, and the reported depth is the path length minus one,
exactly as in lines 469 to 479. -/
def getHPOTermPath (id : String) (termResult : ApiResponse OntologyTerm)
    (ancestorsResult : ApiResponse (List TermRef)) : PathResult :=
  if truthy termResult.error then
    .fetchError ("Error retrieving term " ++ id ++ ": " ++ termResult.error.getD "")
  else if truthy ancestorsResult.error then
    .fetchError ("Error retrieving ancestors for " ++ id ++ ": " ++ ancestorsResult.error.getD "")
  else
    match termResult.data with
    | none => .notFound id
    | some term =>
      let ancestors := ancestorsResult.data.getD []
      let pathTerms := ancestors.reverse ++ [⟨term.id, term.name⟩]
      .ok pathTerms (pathTerms.length - 1)

/-- The hierarchy and metadata counts reported by getHPOTermStats. -/
structure TermStats where
  ancestorCount : Nat
  parentCount : Nat
  childCount : Nat
  descendantCount : Nat
  depthFromRoot : Nat
  synonymCount : Nat
  xrefCount : Nat
  altIdCount : Nat
  obsolete : Bool
deriving DecidableEq, Repr

/-- Outcome of getHPOTermStats: the error return, the not found return, or
the statistics report. -/
inductive StatsResult where
  | fetchError (msg : String)
  | notFound (id : String)
  | ok (name : String) (stats : TermStats)
deriving DecidableEq, Repr

/-- getHPOTermStats from hpo-handlers.ts, with the five remote fetch results
passed as arguments.  Only the term fetch error is checked; each of the four
hierarchy fetch results is read through data or else the empty list (lines
601 to 604), and every count is the length of that list. -/
def getHPOTermStats (id : String) (termResult : ApiResponse OntologyTerm)
    (ancestorsResult descendantsResult parentsResult childrenResult :
      ApiResponse (List TermRef)) : StatsResult :=
  if truthy termResult.error then
    .fetchError ("Error retrieving term " ++ id ++ ": " ++ termResult.error.getD "")
  else
    match termResult.data with
    | none => .notFound id
    | some term =>
      let ancestors := ancestorsResult.data.getD []
      let descendants := descendantsResult.data.getD []
      let parents := parentsResult.data.getD []
      let children := childrenResult.data.getD []
      .ok term.name {
        ancestorCount := ancestors.length
        parentCount := parents.length
        childCount := children.length
        descendantCount := descendants.length
        depthFromRoot := ancestors.length
        synonymCount := (term.synonyms.getD []).length
        xrefCount := (term.xrefs.getD []).length
        altIdCount := (term.alternativeIds.getD []).length
        obsolete := term.isObsolete.getD false }

/-- Per id outcome captured inside batchGetHPOTerms (lines 665 to 681):
the id, a success flag that is the negated truthiness of the error, and the
payload and error copied from the fetch result. -/
structure BatchOutcome where
  id : String
  success : Bool
  data : Option OntologyTerm
  error : Option String
deriving DecidableEq, Repr

/-- Outcome of batchGetHPOTerms: the empty input return, the cap exceeded
return, or the partition into successful and failed outcomes. -/
inductive BatchResult where
  | noIds
  | capExceeded
  | ok (successful failed : List BatchOutcome)
deriving DecidableEq, Repr

/-- The outcome recorded for one id, as a function of that id and of its own
fetch result only. -/
def outcomeOf (getTerm : String → ApiResponse OntologyTerm) (id : String) : BatchOutcome :=
  let result := getTerm id
  { id := id, success := !truthy result.error, data := result.data, error := result.error }

/-- batchGetHPOTerms from hpo-handlers.ts, with the remote term fetch passed
as a function argument.  The second component of the pair records the ids
for which a fetch is issued: the empty input and cap exceeded branches
return before any fetch.  The partition filters keep the input order. -/
def batchGetHPOTerms (ids : List String)
    (getTerm : String → ApiResponse OntologyTerm) : BatchResult × List String :=
  if ids.length = 0 then (.noIds, [])
  else if ids.length > 20 then (.capExceeded, [])
  else
    let results := ids.map (outcomeOf getTerm)
    (.ok (results.filter (fun r => r.success)) (results.filter (fun r => !r.success)), ids)

/-- Concrete term used in the example scenarios of the theorems below. -/
def sampleTerm : OntologyTerm := { id := "HP:0000010", name := "term T" }

/-- Concrete ancestor window of exactly 200 entries, the full wide bound
used by getHPOTermPath, standing for a possibly truncated closure. -/
def anc200 : List TermRef :=
  (List.range 200).map (fun i => { id := "HP:" ++ toString i, name := "ancestor" })

/-- Concrete fetch function in which exactly the second sample id fails. -/
def sampleGet : String → ApiResponse OntologyTerm := fun i =>
  if i == "HP:0000002" then { data := none, error := some "HPO API Error (404): not found" }
  else { data := some { id := i, name := "term " ++ i }, error := none }

/-- The three sample ids handed to the batch coordinator in the witnesses. -/
def sampleIds : List String := ["HP:0000001", "HP:0000002", "HP:0000003"]

/-- Helper: on a successful term fetch and a successful ancestor fetch, the
path handler returns the reversed closure with the term appended, and the
reported depth equals the ancestor count. -/
theorem getHPOTermPath_ok (id : String) (term : OntologyTerm) (anc : List TermRef) :
    getHPOTermPath id ⟨some term, none⟩ ⟨some anc, none⟩
      = .ok (anc.reverse ++ [⟨term.id, term.name⟩]) anc.length := by
  simp [getHPOTermPath, truthy]

/-- C9: the identifier normalizer is pure and total; a seven digit numeric
string is prefixed with HP:, a canonical id is returned unchanged, the
normalizer is idempotent on canonical ids, and malformed input passes
through unchanged. -/
theorem formatHPOId_normalizer_c9 (s : String) :
    (s.data.length = 7 → s.data.all Char.isDigit = true → formatHPOId s = "HP:" ++ s)
  ∧ (matchesCanonical s = true → formatHPOId s = s)
  ∧ (matchesCanonical s = true → formatHPOId (formatHPOId s) = formatHPOId s)
  ∧ (startsWithHP s.data = false → allDigits s = false → formatHPOId s = s) := by
  obtain ⟨l⟩ := s
  have hB : matchesCanonical ⟨l⟩ = true → formatHPOId ⟨l⟩ = ⟨l⟩ := by
    intro hc
    simp only [matchesCanonical, Bool.and_eq_true] at hc
    simp [formatHPOId, hc.1.1]
  refine ⟨?_, hB, fun hc => by rw [hB hc]; exact hB hc, ?_⟩
  · intro hlen hdig
    have hsw : startsWithHP l = false := by
      cases l with
      | nil => simp at hlen
      | cons a t =>
        have ha : a.isDigit = true := by
          simp only [List.all_cons, Bool.and_eq_true] at hdig
          exact hdig.1
        simp only [startsWithHP, List.take_succ_cons, beq_eq_false_iff_ne, ne_eq,
          List.cons.injEq, not_and]
        intro hH
        rw [hH] at ha
        exact absurd ha (by decide)
    have hne : l ≠ [] := by
      intro h
      rw [h] at hlen
      simp at hlen
    simp only [formatHPOId, allDigits, padStart7]
    rw [hsw]
    simp only [Bool.false_eq_true, if_false]
    have hcond : (!(l.isEmpty) && l.all Char.isDigit) = true := by
      simp [List.isEmpty_iff, hne, hdig]
    show (if (!(l.isEmpty) && l.all Char.isDigit) = true then
        "HP:" ++ String.mk (List.replicate (7 - (String.mk l).length) ('0') ++ l)
      else String.mk l) = "HP:" ++ String.mk l
    rw [hcond]
    simp only [if_true]
    have hlen7 : (String.mk l).length = 7 := hlen
    rw [hlen7]
    simp
  · intro h1 h2
    simp [formatHPOId, h1, h2]

/-- C9 witness: the normalizer evaluated on a seven digit string, on a
canonical id twice, and on malformed input. -/
theorem formatHPOId_normalizer_c9_witness :
    ("0001234".data.length = 7 ∧ formatHPOId "0001234" = "HP:" ++ "0001234")
  ∧ (matchesCanonical "HP:0001234" = true ∧ formatHPOId "HP:0001234" = "HP:0001234")
  ∧ formatHPOId (formatHPOId "HP:0001234") = formatHPOId "HP:0001234"
  ∧ formatHPOId "Marfan" = "Marfan" :=
  ⟨⟨by decide, (formatHPOId_normalizer_c9 "0001234").1 (by decide) (by decide)⟩,
   ⟨by decide, (formatHPOId_normalizer_c9 "HP:0001234").2.1 (by decide)⟩,
   (formatHPOId_normalizer_c9 "HP:0001234").2.2.1 (by decide),
   (formatHPOId_normalizer_c9 "Marfan").2.2.2 (by decide) (by decide)⟩

/-- C1: on successful term and ancestor fetches the comparator returns a
verdict computed by the first match wins cascade: descendant of the second,
else descendant of the first, else related via a non empty common ancestor
set, else unrelated; in the scenario where the ancestors of A are B, X, Y
and the ancestors of B are X, Y the verdict is FirstIsDescendantOfSecond. -/
theorem comparator_precedence_c1 (t1 t2 : String) (d1 d2 : OntologyTerm)
    (l1 l2 : List TermRef) :
    compareHPOTerms t1 t2 ⟨some d1, none⟩ ⟨some d2, none⟩ ⟨some l1, none⟩ ⟨some l2, none⟩
      = .ok (classifyRelationship t1 t2 l1 l2) (commonAncestorsOf l1 l2)
  ∧ (classifyRelationship t1 t2 l1 l2 = .FirstIsDescendantOfSecond ↔
      l1.any (fun a => a.id == t2) = true)
  ∧ (classifyRelationship t1 t2 l1 l2 = .SecondIsDescendantOfFirst ↔
      (l1.any (fun a => a.id == t2) = false ∧ l2.any (fun a => a.id == t1) = true))
  ∧ (classifyRelationship t1 t2 l1 l2 = .RelatedViaCommonAncestors ↔
      (l1.any (fun a => a.id == t2) = false ∧ l2.any (fun a => a.id == t1) = false ∧
        commonAncestorsOf l1 l2 ≠ []))
  ∧ (classifyRelationship t1 t2 l1 l2 = .Unrelated ↔
      (l1.any (fun a => a.id == t2) = false ∧ l2.any (fun a => a.id == t1) = false ∧
        commonAncestorsOf l1 l2 = []))
  ∧ classifyRelationship "A" "B"
      [⟨"B", "term B"⟩, ⟨"X", "term X"⟩, ⟨"Y", "term Y"⟩]
      [⟨"X", "term X"⟩, ⟨"Y", "term Y"⟩] = .FirstIsDescendantOfSecond := by
  refine ⟨by simp [compareHPOTerms, truthy], ?_, ?_, ?_, ?_, by decide⟩ <;>
    simp only [classifyRelationship] <;>
    split_ifs with h1 h2 h3 <;>
    simp_all [List.length_pos]

/-- C2: on successful fetches the path handler reverses the nearest first
ancestor closure, appends the queried term, and reports depth equal to the
ancestor count, which is the path length minus one; the closure P3, P2, P1
gives the path P1, P2, P3, T with depth three; a term with zero ancestors
gives the single element path with depth zero, a success. -/
theorem path_reconstruction_c2 :
    (∀ (id : String) (term : OntologyTerm) (anc : List TermRef),
      getHPOTermPath id ⟨some term, none⟩ ⟨some anc, none⟩
        = .ok (anc.reverse ++ [⟨term.id, term.name⟩]) anc.length
      ∧ (anc.reverse ++ [(⟨term.id, term.name⟩ : TermRef)]).length - 1 = anc.length)
  ∧ getHPOTermPath "HP:0000010" ⟨some sampleTerm, none⟩
      ⟨some [⟨"P3", "p3"⟩, ⟨"P2", "p2"⟩, ⟨"P1", "p1"⟩], none⟩
      = .ok [⟨"P1", "p1"⟩, ⟨"P2", "p2"⟩, ⟨"P3", "p3"⟩, ⟨"HP:0000010", "term T"⟩] 3
  ∧ getHPOTermPath "HP:0000010" ⟨some sampleTerm, none⟩ ⟨some [], none⟩
      = .ok [⟨"HP:0000010", "term T"⟩] 0 :=
  ⟨fun id term anc => ⟨getHPOTermPath_ok id term anc, by simp⟩, by decide, by decide⟩

/-- C3: the term fetch is load bearing, a truthy term fetch error fails the
whole statistics operation; on a successful term fetch the four hierarchy
fetch results are read independently, each count being the length of that
result payload or zero when the payload is missing, whatever the other
fetch results hold; in particular a failed descendant fetch degrades to a
descendant count of zero while the other counts are reported. -/
theorem stats_load_bearing_c3 :
    (∀ (id msg : String) (tdata : Option OntologyTerm)
        (a d p c : ApiResponse (List TermRef)), msg ≠ "" →
      getHPOTermStats id ⟨tdata, some msg⟩ a d p c
        = .fetchError ("Error retrieving term " ++ id ++ ": " ++ msg))
  ∧ (∀ (id : String) (term : OntologyTerm) (a d p c : ApiResponse (List TermRef)),
      getHPOTermStats id ⟨some term, none⟩ a d p c
        = .ok term.name {
            ancestorCount := (a.data.getD []).length
            parentCount := (p.data.getD []).length
            childCount := (c.data.getD []).length
            descendantCount := (d.data.getD []).length
            depthFromRoot := (a.data.getD []).length
            synonymCount := (term.synonyms.getD []).length
            xrefCount := (term.xrefs.getD []).length
            altIdCount := (term.alternativeIds.getD []).length
            obsolete := term.isObsolete.getD false })
  ∧ getHPOTermStats "HP:0000010" ⟨some sampleTerm, none⟩
      ⟨some [⟨"A1", "a1"⟩, ⟨"A2", "a2"⟩], none⟩
      ⟨none, some "HPO API is not responding. Please check your internet connection."⟩
      ⟨some [⟨"A1", "a1"⟩], none⟩
      ⟨some [⟨"C1", "c1"⟩, ⟨"C2", "c2"⟩, ⟨"C3", "c3"⟩], none⟩
      = .ok "term T" {
          ancestorCount := 2, parentCount := 1, childCount := 3,
          descendantCount := 0, depthFromRoot := 2,
          synonymCount := 0, xrefCount := 0, altIdCount := 0, obsolete := false } := by
  refine ⟨?_, ?_, by decide⟩
  · intro id msg tdata a d p c hmsg
    simp [getHPOTermStats, truthy, hmsg]
  · intro id term a d p c
    simp [getHPOTermStats, truthy]

/-- C3 witness: the load bearing term fetch failure evaluated at a concrete
input. -/
theorem stats_load_bearing_c3_witness :
    ("boom" : String) ≠ ""
  ∧ getHPOTermStats "HP:0000010" ⟨none, some "boom"⟩ ⟨none, none⟩ ⟨none, none⟩
      ⟨none, none⟩ ⟨none, none⟩
      = .fetchError ("Error retrieving term " ++ "HP:0000010" ++ ": " ++ "boom") :=
  ⟨by decide,
   stats_load_bearing_c3.1 "HP:0000010" "boom" none ⟨none, none⟩ ⟨none, none⟩
     ⟨none, none⟩ ⟨none, none⟩ (by decide)⟩

/-- C4 counterexample: an invocation in which the descendant fetch failed
with a transport error yields a result identical to the one of an
invocation in which the descendant fetch succeeded with an empty payload,
so the result carries no marker of the partial failure. -/
theorem stats_no_marker_c4_counterexample :
    getHPOTermStats "HP:0000010" ⟨some sampleTerm, none⟩
      ⟨some [⟨"A1", "a1"⟩], none⟩
      ⟨none, some "HPO API is not responding. Please check your internet connection."⟩
      ⟨some [⟨"A1", "a1"⟩], none⟩ ⟨some [⟨"C1", "c1"⟩], none⟩
    = getHPOTermStats "HP:0000010" ⟨some sampleTerm, none⟩
      ⟨some [⟨"A1", "a1"⟩], none⟩
      ⟨some [], none⟩
      ⟨some [⟨"A1", "a1"⟩], none⟩ ⟨some [⟨"C1", "c1"⟩], none⟩ := by decide

/-- C4 amended: when a hierarchy sub fetch fails, the statistics result is
identical to the result of a successful empty fetch, for each of the four
hierarchy fetches; the failure is silently dropped, with no marker. -/
theorem stats_silent_degrade_c4 (id msg : String) (term : OntologyTerm)
    (a d p c : ApiResponse (List TermRef)) :
    getHPOTermStats id ⟨some term, none⟩ ⟨none, some msg⟩ d p c
      = getHPOTermStats id ⟨some term, none⟩ ⟨some [], none⟩ d p c
  ∧ getHPOTermStats id ⟨some term, none⟩ a ⟨none, some msg⟩ p c
      = getHPOTermStats id ⟨some term, none⟩ a ⟨some [], none⟩ p c
  ∧ getHPOTermStats id ⟨some term, none⟩ a d ⟨none, some msg⟩ c
      = getHPOTermStats id ⟨some term, none⟩ a d ⟨some [], none⟩ c
  ∧ getHPOTermStats id ⟨some term, none⟩ a d p ⟨none, some msg⟩
      = getHPOTermStats id ⟨some term, none⟩ a d p ⟨some [], none⟩ := by
  refine ⟨?_, ?_, ?_, ?_⟩ <;> simp [getHPOTermStats, truthy]

/-- C8 counterexample: with a full 200 entry ancestor window, the bound used
by the path handler and hence a possibly truncated closure, the result is
the ordinary complete looking root to term path of depth 200; the result
carries no marker distinguishing it from an untruncated closure of the same
content. -/
theorem path_truncation_c8_counterexample :
    anc200.length = 200
  ∧ getHPOTermPath "HP:0000010" ⟨some sampleTerm, none⟩ ⟨some anc200, none⟩
      = .ok (anc200.reverse ++ [⟨"HP:0000010", "term T"⟩]) 200 := by
  have hl : anc200.length = 200 := by simp [anc200]
  refine ⟨hl, ?_⟩
  rw [getHPOTermPath_ok, hl]
  simp [sampleTerm]

/-- C8 amended: when the ancestor window comes back full at the 200 entry
bound, the reconstructed path is still presented as a plain complete root
to term path of depth 200, with no partiality marker in the result. -/
theorem path_window_full_c8 (id : String) (term : OntologyTerm)
    (anc : List TermRef) (h : anc.length = 200) :
    getHPOTermPath id ⟨some term, none⟩ ⟨some anc, none⟩
      = .ok (anc.reverse ++ [⟨term.id, term.name⟩]) 200 := by
  rw [getHPOTermPath_ok, h]

/-- C8 witness: the amended statement evaluated at the concrete 200 entry
window. -/
theorem path_window_full_c8_witness :
    anc200.length = 200
  ∧ getHPOTermPath "HP:0000123" ⟨some sampleTerm, none⟩ ⟨some anc200, none⟩
      = .ok (anc200.reverse ++ [⟨sampleTerm.id, sampleTerm.name⟩]) 200 :=
  ⟨by simp [anc200],
   path_window_full_c8 "HP:0000123" sampleTerm anc200 (by simp [anc200])⟩

/-- Helper: the ids of the successful batch outcomes are the input ids whose
own fetch has a falsy error, in input order. -/
theorem batch_success_ids (get : String → ApiResponse OntologyTerm) (ids : List String) :
    ((ids.map (outcomeOf get)).filter (fun r => r.success)).map (fun r => r.id)
      = ids.filter (fun i => !truthy (get i).error) := by
  induction ids with
  | nil => rfl
  | cons i t ih =>
    cases h : truthy (get i).error <;>
      simp [List.filter_cons, outcomeOf, h, ih]

/-- Helper: the ids of the failed batch outcomes are the input ids whose own
fetch has a truthy error, in input order. -/
theorem batch_failed_ids (get : String → ApiResponse OntologyTerm) (ids : List String) :
    ((ids.map (outcomeOf get)).filter (fun r => !r.success)).map (fun r => r.id)
      = ids.filter (fun i => truthy (get i).error) := by
  induction ids with
  | nil => rfl
  | cons i t ih =>
    cases h : truthy (get i).error <;>
      simp [List.filter_cons, outcomeOf, h, ih]

/-- C5: for a non empty input of at most twenty ids, the batch coordinator
maps each id to an outcome computed from its own fetch result only, and
partitions the outcomes into successes and failures, each partition keeping
the input order of the ids. -/
theorem batch_partition_c5 (ids : List String)
    (get : String → ApiResponse OntologyTerm) (h1 : ids ≠ []) (h2 : ids.length ≤ 20) :
    (batchGetHPOTerms ids get).1
      = .ok ((ids.map (outcomeOf get)).filter (fun r => r.success))
          ((ids.map (outcomeOf get)).filter (fun r => !r.success))
  ∧ ((ids.map (outcomeOf get)).filter (fun r => r.success)).map (fun r => r.id)
      = ids.filter (fun i => !truthy (get i).error)
  ∧ ((ids.map (outcomeOf get)).filter (fun r => !r.success)).map (fun r => r.id)
      = ids.filter (fun i => truthy (get i).error) := by
  have h0 : ¬ ids.length = 0 := by
    simp [List.length_eq_zero]
    exact h1
  have h20 : ¬ ids.length > 20 := Nat.not_lt.mpr h2
  exact ⟨by simp [batchGetHPOTerms, h0, h20],
    batch_success_ids get ids, batch_failed_ids get ids⟩

/-- C5 witness: the partition for the concrete input A, B, C in which only
B fails: successes are A, C and failures are B, both in input order. -/
theorem batch_partition_c5_witness :
    sampleIds ≠ []
  ∧ sampleIds.length ≤ 20
  ∧ (batchGetHPOTerms sampleIds sampleGet).1
      = .ok ((sampleIds.map (outcomeOf sampleGet)).filter (fun r => r.success))
          ((sampleIds.map (outcomeOf sampleGet)).filter (fun r => !r.success))
  ∧ ((sampleIds.map (outcomeOf sampleGet)).filter (fun r => r.success)).map (fun r => r.id)
      = ["HP:0000001", "HP:0000003"]
  ∧ ((sampleIds.map (outcomeOf sampleGet)).filter (fun r => !r.success)).map (fun r => r.id)
      = ["HP:0000002"] :=
  ⟨by decide, by decide,
   (batch_partition_c5 sampleIds sampleGet (by decide) (by decide)).1,
   by decide, by decide⟩

/-- C6: more than twenty ids give the cap exceeded report with no fetch
issued, and the empty input gives the distinguished no ids report, not a
failure, also with no fetch issued. -/
theorem batch_guards_c6 (ids : List String) (get : String → ApiResponse OntologyTerm) :
    (ids.length > 20 → batchGetHPOTerms ids get = (.capExceeded, []))
  ∧ (ids = [] → batchGetHPOTerms ids get = (.noIds, [])) := by
  constructor
  · intro h
    have h0 : ¬ ids.length = 0 := by omega
    simp [batchGetHPOTerms, h0, h]
  · intro h
    subst h
    rfl

/-- C6 witness: the guards evaluated at a twenty one element input and at
the empty input. -/
theorem batch_guards_c6_witness :
    (List.replicate 21 "HP:0000001").length > 20
  ∧ batchGetHPOTerms (List.replicate 21 "HP:0000001") sampleGet = (.capExceeded, [])
  ∧ batchGetHPOTerms ([] : List String) sampleGet = (.noIds, []) :=
  ⟨by decide,
   (batch_guards_c6 (List.replicate 21 "HP:0000001") sampleGet).1 (by decide),
   (batch_guards_c6 [] sampleGet).2 rfl⟩

/-- C7 counterexample: when both term fetches fail, the reported message
carries only the first error; the result is unchanged when the second error
text is replaced by a different one, so the report does not name both. -/
theorem compare_first_error_c7_counterexample :
    compareHPOTerms "HP:0000001" "HP:0000002" ⟨none, some "transport failure one"⟩
      ⟨none, some "transport failure two"⟩ ⟨none, none⟩ ⟨none, none⟩
      = .fetchError "Error retrieving terms: transport failure one"
  ∧ compareHPOTerms "HP:0000001" "HP:0000002" ⟨none, some "transport failure one"⟩
      ⟨none, some "transport failure two"⟩ ⟨none, none⟩ ⟨none, none⟩
    = compareHPOTerms "HP:0000001" "HP:0000002" ⟨none, some "transport failure one"⟩
      ⟨none, some "a different second error"⟩ ⟨none, none⟩ ⟨none, none⟩ :=
  ⟨by decide, by decide⟩

/-- C7 amended: when the first term fetch fails its error alone is reported,
whatever the second fetch holds; when only the second fails its error is
reported; and the comparator fails, producing no verdict, whenever either
fetch fails or either term payload is missing. -/
theorem compare_fetch_failures_c7 (t1 t2 e1 e2 : String)
    (d1 d2 : Option OntologyTerm) (e2o : Option String)
    (a1 a2 : ApiResponse (List TermRef)) :
    (e1 ≠ "" → compareHPOTerms t1 t2 ⟨d1, some e1⟩ ⟨d2, e2o⟩ a1 a2
      = .fetchError ("Error retrieving terms: " ++ e1))
  ∧ (e2 ≠ "" → compareHPOTerms t1 t2 ⟨d1, none⟩ ⟨d2, some e2⟩ a1 a2
      = .fetchError ("Error retrieving terms: " ++ e2))
  ∧ compareHPOTerms t1 t2 ⟨none, none⟩ ⟨d2, none⟩ a1 a2 = .notFound t1 t2
  ∧ compareHPOTerms t1 t2 ⟨d1, none⟩ ⟨none, none⟩ a1 a2 = .notFound t1 t2 := by
  refine ⟨?_, ?_, ?_, ?_⟩
  · intro h
    simp [compareHPOTerms, truthy, jsOrE, h]
  · intro h
    simp [compareHPOTerms, truthy, jsOrE, h]
  · simp [compareHPOTerms, truthy]
  · simp [compareHPOTerms, truthy]

/-- C7 witness: the amended first error report evaluated at a concrete
double failure. -/
theorem compare_fetch_failures_c7_witness :
    ("E one" : String) ≠ ""
  ∧ compareHPOTerms "HP:0000001" "HP:0000002" ⟨none, some "E one"⟩ ⟨none, some "E two"⟩
      ⟨none, none⟩ ⟨none, none⟩ = .fetchError ("Error retrieving terms: " ++ "E one") :=
  ⟨by decide,
   (compare_fetch_failures_c7 "HP:0000001" "HP:0000002" "E one" "x" none none
     (some "E two") ⟨none, none⟩ ⟨none, none⟩).1 (by decide)⟩

/-- C10: when both term fetches succeed but an ancestor closure fetch fails,
the failed closure is silently read as the empty ancestor list, the
comparison still returns a verdict with no error marker, and with both
closures failed the verdict is Unrelated with an empty common ancestor set,
purely because the fetches failed. -/
theorem compare_closure_failure_silent_c10 (t1 t2 : String) (d1 d2 : OntologyTerm)
    (e1 e2 : String) :
    compareHPOTerms t1 t2 ⟨some d1, none⟩ ⟨some d2, none⟩ ⟨none, some e1⟩ ⟨none, some e2⟩
      = .ok .Unrelated []
  ∧ ∀ l2 : List TermRef,
      compareHPOTerms t1 t2 ⟨some d1, none⟩ ⟨some d2, none⟩ ⟨none, some e1⟩ ⟨some l2, none⟩
        = .ok (classifyRelationship t1 t2 [] l2) (commonAncestorsOf [] l2) := by
  constructor
  · simp [compareHPOTerms, truthy, classifyRelationship, commonAncestorsOf]
  · intro l2
    simp [compareHPOTerms, truthy]
